import Mathlib

set_option autoImplicit false

/-!
Shallow embedding of the dotman reconciliation engine (src/main.rs) and a
verification of the specification's claims about it.

The filesystem is modelled as a finite association list from absolute path
strings to nodes.  A node is a regular file, a symbolic link (storing its raw
target path), or a directory.  A set of `denied` paths models the
environment's permission bits: mutating operations on those paths fail, which
is how permission/IO errors of the real system are made expressible.
-/

/-- Filesystem node: a regular file with its contents, a symbolic link
storing the raw path it points to, or a directory. -/
inductive FsNode where
  | file (content : String)
  | symlinkTo (target : String)
  | dir
deriving DecidableEq

/-- A filesystem snapshot: an association list from path to node, plus the
set of paths on which mutating operations fail with a permission error. -/
structure Fs where
  nodes : List (String × FsNode)
  denied : List String
deriving DecidableEq

/-- One manifest entry, mirroring `struct File` of src/main.rs: `target` is
the repository path (the spec's `source`), `dest` the place the link should
live, `template` an optional template file path. -/
structure FileRec where
  target : String
  dest : String
  template : Option String
deriving DecidableEq

/-- The manifest, mirroring `struct Manifest` of src/main.rs: optional
wallpaper path, optional theme name, and the ordered entry list. -/
structure ManifestL where
  wallpaper : Option String
  theme : Option String
  files : List (String × FileRec)
deriving DecidableEq

/-- The outcome of placing one symbolic link at one leaf, as classified by
the spec's `LinkOutcome`; each constructor corresponds to one arm of
`symlink_file` in src/main.rs. -/
inductive LinkOutcome where
  | created
  | replaced
  | skippedUpToDate
  | skippedBrokenLinkCleared
  | conflictManualResolutionRequired
deriving DecidableEq

/-- Error kinds of the raw symlink system call that src/main.rs inspects
via `err.kind()`. -/
inductive SysErr where
  | alreadyExists
  | permissionDenied
deriving DecidableEq

deriving instance DecidableEq for Except

/-- Lexical lookup of the node stored at a path (does not follow links);
models `symlink_metadata`-style access. -/
def lookupNode (fs : Fs) (p : String) : Option FsNode :=
  (fs.nodes.find? (fun kv => kv.1 == p)).map Prod.snd

/-- Append a node for a path to the snapshot. -/
def pushNode (fs : Fs) (p : String) (v : FsNode) : Fs :=
  { fs with nodes := fs.nodes ++ [(p, v)] }

/-- Remove every node stored at a path. -/
def eraseNode (fs : Fs) (p : String) : Fs :=
  { fs with nodes := fs.nodes.filter (fun kv => !(kv.1 == p)) }

/-- Follow symbolic links from a path until a non-link node is reached,
with explicit fuel; returns the canonical path, or `none` when the chain
leaves the filesystem (a broken link) or the fuel runs out. -/
def resolveFuel (fs : Fs) : Nat → String → Option String
  | 0, _ => none
  | n + 1, p =>
    match lookupNode fs p with
    | none => none
    | some (FsNode.symlinkTo t) => resolveFuel fs n t
    | some _ => some p

/-- Canonicalize a path: follow link chains with fuel bounded by the size of
the snapshot; models `Path::canonicalize`. -/
def canonicalize (fs : Fs) (p : String) : Option String :=
  resolveFuel fs (fs.nodes.length + 1) p

/-- Whether a path exists after following links; models `Path::exists`,
which is false for a broken symbolic link. -/
def pathExists (fs : Fs) (p : String) : Bool :=
  (canonicalize fs p).isSome

/-- Whether the node at a path is itself a symbolic link; models
`Path::is_symlink`. -/
def isSymlink (fs : Fs) (p : String) : Bool :=
  match lookupNode fs p with
  | some (FsNode.symlinkTo _) => true
  | _ => false

/-- Whether a path denotes a directory after following links; models
`Path::is_dir`. -/
def isDir (fs : Fs) (p : String) : Bool :=
  match canonicalize fs p with
  | some q =>
    match lookupNode fs q with
    | some FsNode.dir => true
    | _ => false
  | none => false

/-- Whether the first list is an initial segment of the second; the
character-level analogue of the standard starts-with test. -/
def isPre : List Char → List Char → Bool
  | [], _ => true
  | _ :: _, [] => false
  | a :: as, b :: bs => a == b && isPre as bs

/-- Replace every non-overlapping occurrence of `pat` by `rep`, scanning
left to right, with fuel; the character-level analogue of `str::replace`. -/
def replaceFuel (pat rep : List Char) : Nat → List Char → List Char
  | 0, s => s
  | n + 1, s =>
    match s with
    | [] => []
    | a :: as =>
      if isPre pat s then rep ++ replaceFuel pat rep n (s.drop pat.length)
      else a :: replaceFuel pat rep n as

/-- String wrapper for `replaceFuel`; models `str::replace`. -/
def strReplace (s pat rep : String) : String :=
  if pat.data.isEmpty then s
  else String.mk (replaceFuel pat.data rep.data s.data.length s.data)

/-- Split at every occurrence of a separator, with fuel; the
character-level analogue of `String.splitOn`. -/
def splitOnFuel (sep : List Char) : Nat → List Char → List Char → List (List Char)
  | 0, acc, s => [acc.reverse ++ s]
  | n + 1, acc, s =>
    match s with
    | [] => [acc.reverse]
    | a :: as =>
      if isPre sep s then acc.reverse :: splitOnFuel sep n [] (s.drop sep.length)
      else splitOnFuel sep n (a :: acc) as

/-- String wrapper for `splitOnFuel`; models `String.splitOn`. -/
def strSplitOn (s sep : String) : List String :=
  if sep.data.isEmpty then [s]
  else (splitOnFuel sep.data s.data.length [] s.data).map String.mk

/-- Join strings with a separator; models `String.intercalate`. -/
def interChars (sep : List Char) : List (List Char) → List Char
  | [] => []
  | [x] => x
  | x :: y :: rest => x ++ sep ++ interChars sep (y :: rest)

/-- String wrapper for `interChars`. -/
def strIntercalate (sep : String) (l : List String) : String :=
  String.mk (interChars sep.data (l.map String.data))

/-- The four whitespace characters the standard trim removes. -/
def isWsChar (c : Char) : Bool :=
  c == ' ' || c == '\t' || c == '\r' || c == '\n'

/-- Drop leading whitespace characters. -/
def dropWs : List Char → List Char
  | [] => []
  | a :: as => if isWsChar a then dropWs as else a :: as

/-- Trim whitespace from both ends; models `str::trim`. -/
def strTrim (s : String) : String :=
  String.mk (((dropWs s.data).reverse |> dropWs).reverse)

/-- Last path component; models `Path::file_name`. -/
def fileName (p : String) : String :=
  (strSplitOn p "/").getLastD ""

/-- Parent path (components without the last one); models `Path::parent`. -/
def parentPath (p : String) : String :=
  strIntercalate "/" (strSplitOn p "/").dropLast

/-- Join a path with one further component; models `Path::join`. -/
def joinPath (d n : String) : String :=
  d ++ "/" ++ n

/-- The chain of a path and its ancestors, innermost first, with fuel. -/
def ancestors : Nat → String → List String
  | 0, _ => []
  | n + 1, p => if p = "" ∨ p = "/" then [] else p :: ancestors n (parentPath p)

/-- Create a directory and all missing ancestor directories; models
`fs::create_dir_all`, which is idempotent (no error when a directory already
exists). -/
def createDirAll (fs : Fs) (p : String) : Except String Fs :=
  if fs.denied.contains p then
    Except.error ("could not create dir " ++ p)
  else
    Except.ok ((ancestors (p.length + 1) p).foldl
      (fun acc q => if (lookupNode acc q).isSome then acc else pushNode acc q FsNode.dir) fs)

/-- The raw symlink system call, `std::os::unix::fs::symlink`: fails with
`AlreadyExists` when anything (even a broken link) occupies the destination,
with a permission error on a denied path, and otherwise records a new
symbolic-link node pointing at the given target. -/
def symlinkRaw (fs : Fs) (target dest : String) : Except SysErr Fs :=
  if (lookupNode fs dest).isSome then Except.error SysErr.alreadyExists
  else if fs.denied.contains dest then Except.error SysErr.permissionDenied
  else Except.ok (pushNode fs dest (FsNode.symlinkTo target))

/-- Remove the node at a path; models `fs::remove_file`, which fails on a
missing path, on a directory, and on a denied path. -/
def removeFile (fs : Fs) (p : String) : Except String Fs :=
  match lookupNode fs p with
  | none => Except.error ("could not remove file " ++ p ++ ": no such file")
  | some FsNode.dir => Except.error ("could not remove file " ++ p ++ ": is a directory")
  | some _ =>
    if fs.denied.contains p then
      Except.error ("could not remove file " ++ p ++ ": permission denied")
    else Except.ok (eraseNode fs p)

/-- Read the contents of the file a path resolves to; models
`fs::read_to_string`. -/
def readToString (fs : Fs) (p : String) : Except String String :=
  match canonicalize fs p with
  | none => Except.error ("could not read file " ++ p)
  | some q =>
    match lookupNode fs q with
    | some (FsNode.file c) => Except.ok c
    | _ => Except.error ("could not read file " ++ p)

/-- Write a string to a file at a path, creating or truncating it; models
`fs::write`, which fails on a denied path and on a directory. -/
def writeFile (fs : Fs) (p : String) (content : String) : Except String Fs :=
  if fs.denied.contains p then Except.error ("could not write to file " ++ p)
  else
    match lookupNode fs p with
    | some FsNode.dir => Except.error ("could not write to file " ++ p)
    | some _ => Except.ok (pushNode (eraseNode fs p) p (FsNode.file content))
    | none => Except.ok (pushNode fs p (FsNode.file content))

/-- The immediate children of a directory path: all stored paths one
component below it; models `fs::read_dir`. -/
def readDir (fs : Fs) (d : String) : List String :=
  (fs.nodes.map Prod.fst).filter
    (fun p => isPre (d ++ "/").data p.data && !((p.data.drop (d.length + 1)).contains '/')
      && decide (d.length + 1 < p.length))

/-- The per-leaf link placement state machine, translated arm by arm from
`symlink_file` in src/main.rs: try to create the link; on `AlreadyExists`,
with `force` remove whatever is there and re-link; otherwise clear a broken
link, skip an up-to-date link, and flag everything else for manual
resolution.  Returns the outcome (or the propagated error) together with the
resulting filesystem. -/
def symlink_file (fs : Fs) (target dest : String) (force : Bool) :
    Except String LinkOutcome × Fs :=
  match symlinkRaw fs target dest with
  | Except.ok fs1 => (Except.ok LinkOutcome.created, fs1)
  | Except.error SysErr.alreadyExists =>
    if force then
      match removeFile fs dest with
      | Except.error m => (Except.error m, fs)
      | Except.ok fs1 =>
        match symlinkRaw fs1 target dest with
        | Except.ok fs2 => (Except.ok LinkOutcome.replaced, fs2)
        | Except.error _ =>
          (Except.error ("could not symlink " ++ target ++ " to " ++ dest), fs1)
    else if isSymlink fs dest then
      if !(pathExists fs dest) then
        match removeFile fs dest with
        | Except.error m => (Except.error m, fs)
        | Except.ok fs1 =>
          match symlinkRaw fs1 target dest with
          | Except.ok fs2 => (Except.ok LinkOutcome.skippedBrokenLinkCleared, fs2)
          | Except.error _ =>
            (Except.error ("could not symlink " ++ target ++ " to " ++ dest), fs1)
      else
        match canonicalize fs dest with
        | none => (Except.error ("could not canonicalize " ++ dest), fs)
        | some origin =>
          match canonicalize fs target with
          | none => (Except.error ("could not canonicalize " ++ target), fs)
          | some tc =>
            if tc == origin then (Except.ok LinkOutcome.skippedUpToDate, fs)
            else (Except.ok LinkOutcome.conflictManualResolutionRequired, fs)
    else (Except.ok LinkOutcome.conflictManualResolutionRequired, fs)
  | Except.error SysErr.permissionDenied =>
    (Except.error ("could not symlink " ++ target ++ " to " ++ dest ++ ": permission denied"), fs)

/-- Result of recursive link placement: error or success, the resulting
filesystem, and the leaf outcomes in traversal order. -/
abbrev LinkRunRes := Except String Unit × Fs × List LinkOutcome

/-- One unfolding step of the recursive directory walk of `symlink_dir_all`
in src/main.rs: a directory target is expanded child by child (creating a
missing destination parent directory first), a non-directory target goes to
the per-leaf state machine. -/
def symlink_dir_step (recur : Fs → String → String → Bool → LinkRunRes)
    (fs : Fs) (target dest : String) (force : Bool) : LinkRunRes :=
  if isDir fs target then
    (readDir fs target).foldl
      (fun acc c =>
        match acc with
        | (Except.error m, fsAcc, outs) => (Except.error m, fsAcc, outs)
        | (Except.ok _, fsAcc, outs) =>
          let d := joinPath dest (fileName c)
          let parent := parentPath d
          match (if pathExists fsAcc parent then Except.ok fsAcc else createDirAll fsAcc parent) with
          | Except.error m => (Except.error m, fsAcc, outs)
          | Except.ok fsB =>
            match recur fsB c d force with
            | (r, fsC, outs2) => (r, fsC, outs ++ outs2))
      (Except.ok (), fs, [])
  else
    match symlink_file fs target dest force with
    | (Except.ok o, fs1) => (Except.ok (), fs1, [o])
    | (Except.error m, fs1) => (Except.error m, fs1, [])

/-- The recursive directory walk of `symlink_dir_all`, with fuel (the real
recursion is over a finite directory tree; the fuel chosen by callers always
suffices for the cases the claims are about). -/
def symlink_dir_all : Nat → Fs → String → String → Bool → LinkRunRes
  | 0 => fun fs _ _ _ => (Except.error "recursion limit", fs, [])
  | n + 1 => symlink_dir_step (symlink_dir_all n)

/-- Fuel used for one entry's directory walk. -/
def fsFuel (fs : Fs) : Nat :=
  fs.nodes.length + 1

/-- Home-directory expansion, translated from `resolve_home_dir` in
src/main.rs: every occurrence of the character `~` and every occurrence of
the token `$HOME` in the path string is replaced by the value of the HOME
environment variable (modelled as an `Option String`); fails when HOME is
unset.  A pure string transformation: it takes no filesystem. -/
def resolve_home_dir (home : Option String) (path : String) : Except String String :=
  match home with
  | none => Except.error "could not find home directory: environment variable not found"
  | some h => Except.ok (strReplace (strReplace path "~" h) "$HOME" h)

/-- Entry-level link placement, translated from `symlink_files` in
src/main.rs: expand HOME in both paths, canonicalize the target, and when
the destination is an existing directory place the link under the target's
base name inside it. -/
def symlink_files (home : Option String) (fs : Fs) (f : FileRec) (force : Bool) : LinkRunRes :=
  match resolve_home_dir home f.target with
  | Except.error m => (Except.error m, fs, [])
  | Except.ok t0 =>
    match canonicalize fs t0 with
    | none => (Except.error ("could not canonicalize " ++ t0), fs, [])
    | some target_path =>
      match resolve_home_dir home f.dest with
      | Except.error m => (Except.error m, fs, [])
      | Except.ok dest_path =>
        if isDir fs dest_path then
          symlink_dir_all (fsFuel fs) fs target_path
            (joinPath dest_path (fileName target_path)) force
        else
          symlink_dir_all (fsFuel fs) fs target_path dest_path force

/-- The variable mapping consumed by template rendering (the `VarMap` of
src/main.rs), as an association list. -/
abbrev VarMap := List (String × String)

/-- Look a variable up in the mapping. -/
def lookupVar (cfg : VarMap) (k : String) : Option String :=
  (cfg.find? (fun kv => kv.1 == k)).map Prod.snd

/-- Insert (or overwrite) a variable in the mapping. -/
def insertVar (cfg : VarMap) (k v : String) : VarMap :=
  cfg.filter (fun kv => !(kv.1 == k)) ++ [(k, v)]

/-- Rendering errors: a malformed template, or a referenced variable absent
from the mapping. -/
inductive RenderErr where
  | malformed
  | undefinedVariable (v : String)
deriving DecidableEq

/-- Render the chunks that follow each opening delimiter: each chunk must
contain a closing delimiter; the text before it names a variable whose
value is substituted, the text after it is literal output. -/
def renderChunks (cfg : VarMap) : List String → Except RenderErr String
  | [] => Except.ok ""
  | chunk :: rest =>
    match strSplitOn chunk "\x7d\x7d" with
    | [] => Except.error RenderErr.malformed
    | [_] => Except.error RenderErr.malformed
    | key :: after =>
      match lookupVar cfg (strTrim key) with
      | none => Except.error (RenderErr.undefinedVariable (strTrim key))
      | some v =>
        match renderChunks cfg rest with
        | Except.error e => Except.error e
        | Except.ok s => Except.ok (v ++ strIntercalate "\x7d\x7d" after ++ s)

/-- Modelled from the spec: the template engine used by `generate_template`
(the external `upon` crate; src/ holds only its caller).  A template is text
with variable references written between double-brace delimiters; rendering
substitutes each referenced variable's value from the mapping, fails with
`UndefinedVariableError` when a referenced variable is absent, and fails
with a syntax error on an unterminated reference. -/
def renderTemplate (cfg : VarMap) (s : String) : Except RenderErr String :=
  match strSplitOn s "\x7b\x7b" with
  | [] => Except.ok ""
  | first :: rest =>
    match renderChunks cfg rest with
    | Except.error e => Except.error e
    | Except.ok out => Except.ok (first ++ out)

/-- The error message `generate_template` attaches to a failed render. -/
def renderErrMsg (tpath : String) (e : RenderErr) : String :=
  match e with
  | RenderErr.malformed => "could not render template " ++ tpath ++ ": malformed template"
  | RenderErr.undefinedVariable v =>
    "could not render template " ++ tpath ++ ": variable " ++ v ++ " is not defined"

/-- Template materialization, translated from `generate_template` in
src/main.rs: canonicalize the entry's target, and when the entry declares a
template that exists, read it, render it against the mapping, and write the
rendered text to the canonical target path (the entry's source file, not its
destination).  Every failure leaves the filesystem as it was at that point. -/
def generate_template (fs : Fs) (f : FileRec) (cfg : VarMap) : Except String Unit × Fs :=
  match canonicalize fs f.target with
  | none => (Except.error ("cannot generate template into " ++ f.target), fs)
  | some target_path =>
    match f.template with
    | none => (Except.ok (), fs)
    | some tpath =>
      if pathExists fs tpath then
        match readToString fs tpath with
        | Except.error m => (Except.error m, fs)
        | Except.ok data =>
          match renderTemplate cfg data with
          | Except.error e => (Except.error (renderErrMsg tpath e), fs)
          | Except.ok rendered =>
            match writeFile fs target_path rendered with
            | Except.error m => (Except.error m, fs)
            | Except.ok fs1 => (Except.ok (), fs1)
      else (Except.error ("could not find template " ++ tpath), fs)

/-- Whether any entry of the manifest declares a template, translated from
`has_templates` in src/main.rs (it scans the whole entry list). -/
def has_templates (files : List (String × FileRec)) : Bool :=
  files.any (fun nf => nf.2.template.isSome)

/-- Palette construction, translated from `create_color_palette` in
src/main.rs.  The palette provider itself (`colors::generate_material_colors`,
a module of this repository not present under src/) is passed in as a
function `derive`; modelled from the spec, it takes the canonical wallpaper
path and the theme name and returns the palette entries merged into the
mapping.  When a wallpaper is declared it is canonicalized, recorded in the
mapping, and the provider is invoked with the declared theme or the default
"dark"; when none is declared the run fails if any manifest entry has a
template and otherwise the palette step is skipped. -/
def create_color_palette (derive : String → String → Except String VarMap)
    (fs : Fs) (wallpaper : Option String) (theme : Option String)
    (files : List (String × FileRec)) (cfg : VarMap) : Except String VarMap :=
  match wallpaper with
  | some wp =>
    match canonicalize fs wp with
    | none => Except.error ("could not find " ++ wp)
    | some wpPath =>
      let cfg1 := insertVar cfg "wallpaper" wpPath
      let themeStr := theme.getD "dark"
      match derive wpPath themeStr with
      | Except.error m => Except.error m
      | Except.ok palette =>
        Except.ok (palette.foldl (fun c kv => insertVar c kv.1 kv.2) cfg1)
  | none =>
    if has_templates files then
      Except.error "could not generate color palette: `wallpaper` is not set."
    else Except.ok cfg

/-- Observable steps of a run, used to state ordering properties: placing an
entry's links, and rendering an entry's template. -/
inductive Event where
  | linked (n : String)
  | rendered (n : String)
deriving DecidableEq

/-- Result of a run: the fatal error if one stopped it, the resulting
filesystem, and the trace of completed steps in order. -/
abbrev RunRes := Option String × Fs × List Event

/-- Processing of one entry in the sync subcommand, translated from the loop
body at src/main.rs lines 157-162: place the links first, then, if the entry
declares a template, render it. -/
def processEntrySync (home : Option String) (cfg : VarMap) (fs : Fs)
    (n : String) (f : FileRec) (force : Bool) : RunRes :=
  match symlink_files home fs f force with
  | (Except.error m, fs1, _) => (some m, fs1, [])
  | (Except.ok _, fs1, _) =>
    if f.template.isSome then
      match generate_template fs1 f cfg with
      | (Except.error m, fs2) => (some m, fs2, [Event.linked n])
      | (Except.ok _, fs2) => (none, fs2, [Event.linked n, Event.rendered n])
    else (none, fs1, [Event.linked n])

/-- The sync loop over the declared entries: each entry is processed in
order, and the first error stops the run (the `?` operator in
`parse_arguments` propagates it out of the loop). -/
def runEntriesSync (home : Option String) (cfg : VarMap) (force : Bool) :
    Fs → List (String × FileRec) → RunRes
  | fs, [] => (none, fs, [])
  | fs, (n, f) :: rest =>
    match processEntrySync home cfg fs n f force with
    | (some m, fs1, evs) => (some m, fs1, evs)
    | (none, fs1, evs) =>
      match runEntriesSync home cfg force fs1 rest with
      | (r, fs2, evs2) => (r, fs2, evs ++ evs2)

/-- Look up a declared entry by name; models `IndexMap::get`. -/
def lookupEntry (files : List (String × FileRec)) (n : String) : Option FileRec :=
  (files.find? (fun kv => kv.1 == n)).map Prod.snd

/-- The sync subcommand, translated from the `"sync"` arm of
`parse_arguments` in src/main.rs: build the colour palette first, then
process either the single selected entry or every entry in declared order. -/
def runSync (derive : String → String → Except String VarMap) (home : Option String)
    (fs : Fs) (m : ManifestL) (name : Option String) (force : Bool) : RunRes :=
  match create_color_palette derive fs m.wallpaper m.theme m.files [] with
  | Except.error msg => (some msg, fs, [])
  | Except.ok cfg =>
    match name with
    | some n =>
      match lookupEntry m.files n with
      | none => (some ("could not find " ++ n), fs, [])
      | some f => processEntrySync home cfg fs n f force
    | none => runEntriesSync home cfg force fs m.files
theorem lookupNode_push_self (fs : Fs) (p : String) (v : FsNode)
    (h : lookupNode fs p = none) : lookupNode (pushNode fs p v) p = some v := by
  unfold lookupNode at h ⊢
  unfold pushNode
  have hf : fs.nodes.find? (fun kv => kv.1 == p) = none := by
    cases hx : fs.nodes.find? (fun kv => kv.1 == p) with
    | none => rfl
    | some a => rw [hx] at h; simp at h
  rw [List.find?_append, hf]
  simp [List.find?]

theorem lookupNode_push_of_some (fs : Fs) (d q : String) (v w : FsNode)
    (h : lookupNode fs q = some w) : lookupNode (pushNode fs d v) q = some w := by
  unfold lookupNode at h ⊢
  unfold pushNode
  cases hx : fs.nodes.find? (fun kv => kv.1 == q) with
  | none => rw [hx] at h; simp at h
  | some a =>
    rw [hx] at h
    rw [List.find?_append, hx]
    exact h

theorem lookupNode_push_ne (fs : Fs) (d q : String) (v : FsNode) (h : q ≠ d) :
    lookupNode (pushNode fs d v) q = lookupNode fs q := by
  unfold lookupNode pushNode
  rw [List.find?_append]
  have hd : ((d, v).1 == q) = false := by
    simp only [beq_eq_false_iff_ne]
    exact fun hdq => h hdq.symm
  cases hx : fs.nodes.find? (fun kv => kv.1 == q) with
  | none => simp [List.find?, hd]
  | some a => simp

theorem lookupNode_erase_self (fs : Fs) (p : String) :
    lookupNode (eraseNode fs p) p = none := by
  unfold lookupNode eraseNode
  have : ∀ l : List (String × FsNode),
      (l.filter (fun kv => !(kv.1 == p))).find? (fun kv => kv.1 == p) = none := by
    intro l
    induction l with
    | nil => simp
    | cons b t ih =>
      cases hb : (b.1 == p) with
      | true => simp [List.filter, hb, ih]
      | false => simp [List.filter, List.find?, hb, ih]
  simp [this]

theorem lookupNode_erase_ne (fs : Fs) (d q : String) (h : q ≠ d) :
    lookupNode (eraseNode fs d) q = lookupNode fs q := by
  unfold lookupNode eraseNode
  have : ∀ l : List (String × FsNode),
      (l.filter (fun kv => !(kv.1 == d))).find? (fun kv => kv.1 == q)
        = l.find? (fun kv => kv.1 == q) := by
    intro l
    induction l with
    | nil => simp
    | cons b t ih =>
      cases hb : (b.1 == q) with
      | true =>
        have hbq : b.1 = q := by simpa using hb
        have hbd : (b.1 == d) = false := by
          simp only [beq_eq_false_iff_ne, hbq]
          exact h
        simp [List.filter, List.find?, hbd, hb]
      | false =>
        cases hbd : (b.1 == d) with
        | true => simpa [List.filter, List.find?, hbd, hb] using ih
        | false => simpa [List.filter, List.find?, hbd, hb] using ih
  simp [this]

theorem resolveFuel_step_symlink (fs : Fs) (n : Nat) (p t : String)
    (h : lookupNode fs p = some (FsNode.symlinkTo t)) :
    resolveFuel fs (n + 1) p = resolveFuel fs n t := by
  simp [resolveFuel, h]

theorem resolveFuel_stop_file (fs : Fs) (n : Nat) (p c : String)
    (h : lookupNode fs p = some (FsNode.file c)) :
    resolveFuel fs (n + 1) p = some p := by
  simp [resolveFuel, h]

theorem resolveFuel_stop_dir (fs : Fs) (n : Nat) (p : String)
    (h : lookupNode fs p = some FsNode.dir) :
    resolveFuel fs (n + 1) p = some p := by
  simp [resolveFuel, h]

theorem resolveFuel_mono (fs : Fs) :
    ∀ (n m : Nat) (p r : String), resolveFuel fs n p = some r → n ≤ m →
      resolveFuel fs m p = some r := by
  intro n
  induction n with
  | zero => intro m p r h _; simp [resolveFuel] at h
  | succ k ih =>
    intro m p r h hle
    cases m with
    | zero => omega
    | succ m' =>
      cases hl : lookupNode fs p with
      | none => simp [resolveFuel, hl] at h
      | some w =>
        cases w with
        | symlinkTo t =>
          rw [resolveFuel_step_symlink fs k p t hl] at h
          rw [resolveFuel_step_symlink fs m' p t hl]
          exact ih m' t r h (by omega)
        | file c =>
          rw [resolveFuel_stop_file fs k p c hl] at h
          rw [resolveFuel_stop_file fs m' p c hl]
          exact h
        | dir =>
          rw [resolveFuel_stop_dir fs k p hl] at h
          rw [resolveFuel_stop_dir fs m' p hl]
          exact h

theorem resolveFuel_push_fresh (fs : Fs) (d : String) (v : FsNode) :
    ∀ (n : Nat) (p r : String), resolveFuel fs n p = some r →
      resolveFuel (pushNode fs d v) n p = some r := by
  intro n
  induction n with
  | zero => intro p r h; simp [resolveFuel] at h
  | succ k ih =>
    intro p r h
    cases hl : lookupNode fs p with
    | none => simp [resolveFuel, hl] at h
    | some w =>
      have hl2 : lookupNode (pushNode fs d v) p = some w :=
        lookupNode_push_of_some fs d p v w hl
      cases w with
      | symlinkTo t =>
        rw [resolveFuel_step_symlink fs k p t hl] at h
        rw [resolveFuel_step_symlink (pushNode fs d v) k p t hl2]
        exact ih t r h
      | file c =>
        rw [resolveFuel_stop_file fs k p c hl] at h
        rw [resolveFuel_stop_file (pushNode fs d v) k p c hl2]
        exact h
      | dir =>
        rw [resolveFuel_stop_dir fs k p hl] at h
        rw [resolveFuel_stop_dir (pushNode fs d v) k p hl2]
        exact h

theorem pushNode_length (fs : Fs) (p : String) (v : FsNode) :
    (pushNode fs p v).nodes.length = fs.nodes.length + 1 := by
  simp [pushNode]

theorem canonicalize_push_fresh (fs : Fs) (d : String) (v : FsNode) (p t : String)
    (h : canonicalize fs p = some t) :
    canonicalize (pushNode fs d v) p = some t := by
  unfold canonicalize at h ⊢
  rw [pushNode_length]
  exact resolveFuel_mono (pushNode fs d v) (fs.nodes.length + 1) (fs.nodes.length + 1 + 1) p t
    (resolveFuel_push_fresh fs d v (fs.nodes.length + 1) p t h) (by omega)

theorem canonicalize_of_file (fs : Fs) (p c : String)
    (h : lookupNode fs p = some (FsNode.file c)) : canonicalize fs p = some p := by
  unfold canonicalize
  exact resolveFuel_stop_file fs fs.nodes.length p c h

theorem isDir_of_file (fs : Fs) (p c : String)
    (h : lookupNode fs p = some (FsNode.file c)) : isDir fs p = false := by
  simp [isDir, canonicalize_of_file fs p c h, h]

theorem renderChunks_undef (cfg : VarMap) :
    ∀ (l : List String) (v : String),
      renderChunks cfg l = Except.error (RenderErr.undefinedVariable v) →
        lookupVar cfg v = none := by
  intro l
  induction l with
  | nil => intro v h; simp [renderChunks] at h
  | cons c rest ih =>
    intro v h
    unfold renderChunks at h
    cases hs : strSplitOn c "\x7d\x7d" with
    | nil => rw [hs] at h; simp at h
    | cons key after =>
      rw [hs] at h
      cases after with
      | nil => simp at h
      | cons a rest2 =>
        cases hv : lookupVar cfg (strTrim key) with
        | none =>
          simp [hv] at h
          rw [← h]
          exact hv
        | some w =>
          cases hr : renderChunks cfg rest with
          | error e =>
            simp [hv, hr] at h
            exact ih v (by rw [hr, h])
          | ok s => simp [hv, hr] at h

theorem writeFile_frame (fs : Fs) (p c : String) (fs1 : Fs)
    (h : writeFile fs p c = Except.ok fs1) :
    ∀ q, q ≠ p → lookupNode fs1 q = lookupNode fs q := by
  intro q hq
  unfold writeFile at h
  cases hd : fs.denied.contains p with
  | true => rw [hd] at h; simp at h
  | false =>
    rw [hd] at h
    simp only [Bool.false_eq_true, if_false] at h
    cases hl : lookupNode fs p with
    | none =>
      rw [hl] at h
      have hfs : fs1 = pushNode fs p (FsNode.file c) := by
        cases h; rfl
      rw [hfs]
      exact lookupNode_push_ne fs p q (FsNode.file c) hq
    | some w =>
      rw [hl] at h
      cases w with
      | dir => simp at h
      | file c0 =>
        have hfs : fs1 = pushNode (eraseNode fs p) p (FsNode.file c) := by
          simp at h; exact h.symm
        rw [hfs, lookupNode_push_ne (eraseNode fs p) p q (FsNode.file c) hq]
        exact lookupNode_erase_ne fs p q hq
      | symlinkTo t =>
        have hfs : fs1 = pushNode (eraseNode fs p) p (FsNode.file c) := by
          simp at h; exact h.symm
        rw [hfs, lookupNode_push_ne (eraseNode fs p) p q (FsNode.file c) hq]
        exact lookupNode_erase_ne fs p q hq

/-- C1: with `force = false`, invoking `place` (the per-leaf state machine
`symlink_file`) twice in succession on a destination that initially does not
exist — the source resolving to a canonical path, as the caller
`symlink_files` guarantees — yields `Created` on the first run and
`SkippedUpToDate` on the second, with the second run returning the
filesystem unchanged (no mutation). -/
theorem place_twice_created_then_uptodate (fs : Fs) (target dest t : String)
    (hmiss : lookupNode fs dest = none)
    (hperm : fs.denied.contains dest = false)
    (htgt : canonicalize fs target = some t) :
    symlink_file fs target dest false
      = (Except.ok LinkOutcome.created, pushNode fs dest (FsNode.symlinkTo target))
    ∧ symlink_file (pushNode fs dest (FsNode.symlinkTo target)) target dest false
      = (Except.ok LinkOutcome.skippedUpToDate, pushNode fs dest (FsNode.symlinkTo target)) := by
  have hl1 : lookupNode (pushNode fs dest (FsNode.symlinkTo target)) dest
      = some (FsNode.symlinkTo target) :=
    lookupNode_push_self fs dest (FsNode.symlinkTo target) hmiss
  have hct1 : canonicalize (pushNode fs dest (FsNode.symlinkTo target)) target = some t :=
    canonicalize_push_fresh fs dest (FsNode.symlinkTo target) target t htgt
  have hcd1 : canonicalize (pushNode fs dest (FsNode.symlinkTo target)) dest = some t := by
    unfold canonicalize
    rw [pushNode_length]
    rw [resolveFuel_step_symlink (pushNode fs dest (FsNode.symlinkTo target))
      (fs.nodes.length + 1) dest target hl1]
    exact resolveFuel_push_fresh fs dest (FsNode.symlinkTo target)
      (fs.nodes.length + 1) target t htgt
  have hperm2 : ¬ dest ∈ fs.denied := by simpa using hperm
  constructor
  · simp [symlink_file, symlinkRaw, hmiss, hperm2]
  · simp [symlink_file, symlinkRaw, isSymlink, pathExists, hl1, hcd1, hct1]

/-- Concrete filesystem for the C1 witness: the source file exists, the
destination does not. -/
def fsW1 : Fs :=
  { nodes := [("/t", FsNode.file "x")], denied := [] }

/-- Witness for C1: the two-run scenario evaluated on `fsW1`. -/
theorem place_twice_created_then_uptodate_witness :
    symlink_file fsW1 "/t" "/d" false
      = (Except.ok LinkOutcome.created, pushNode fsW1 "/d" (FsNode.symlinkTo "/t"))
    ∧ symlink_file (pushNode fsW1 "/d" (FsNode.symlinkTo "/t")) "/t" "/d" false
      = (Except.ok LinkOutcome.skippedUpToDate, pushNode fsW1 "/d" (FsNode.symlinkTo "/t")) :=
  place_twice_created_then_uptodate fsW1 "/t" "/d" "/t" (by decide) (by decide) (by decide)

/-- Concrete filesystem for C2: the destination is a symbolic link that
already resolves to the same canonical target as the source. -/
def fsC2 : Fs :=
  { nodes := [("/s", FsNode.file "x"), ("/d", FsNode.symlinkTo "/s")], denied := [] }

/-- Counterexample to C2: on a destination symlink resolving to the same
canonical target as the source, `place` with `force = true` does not return
`SkippedUpToDate` — it removes and recreates the link and returns
`Replaced`. -/
theorem force_uptodate_symlink_replaced_cex :
    canonicalize fsC2 "/d" = canonicalize fsC2 "/s"
    ∧ (symlink_file fsC2 "/s" "/d" true).1 = Except.ok LinkOutcome.replaced
    ∧ (symlink_file fsC2 "/s" "/d" true).1 ≠ Except.ok LinkOutcome.skippedUpToDate := by
  decide

/-- C2 amended: with `force = true`, a destination occupied by a symbolic
link — even one resolving to the same canonical target as the source — is
removed and the link recreated, returning `Replaced`; the `SkippedUpToDate`
no-op happens only under `force = false`. -/
theorem force_existing_dest_always_replaced (fs : Fs) (target dest q : String)
    (hsym : lookupNode fs dest = some (FsNode.symlinkTo q))
    (hperm : fs.denied.contains dest = false) :
    symlink_file fs target dest true
      = (Except.ok LinkOutcome.replaced,
         pushNode (eraseNode fs dest) dest (FsNode.symlinkTo target)) := by
  have hperm2 : ¬ dest ∈ fs.denied := by simpa using hperm
  have herase : lookupNode (eraseNode fs dest) dest = none := lookupNode_erase_self fs dest
  have hperm3 : ¬ dest ∈ (eraseNode fs dest).denied := by simpa [eraseNode] using hperm
  simp [symlink_file, symlinkRaw, removeFile, hsym, hperm2, herase, hperm3]

/-- Witness for the amended C2 on the concrete filesystem `fsC2`. -/
theorem force_existing_dest_always_replaced_witness :
    symlink_file fsC2 "/s" "/d" true
      = (Except.ok LinkOutcome.replaced,
         pushNode (eraseNode fsC2 "/d") "/d" (FsNode.symlinkTo "/s")) :=
  force_existing_dest_always_replaced fsC2 "/s" "/d" "/s" (by decide) (by decide)

/-- Concrete palette provider for the C3 scenario: one variable `n`. -/
def deriveC3 : String → String → Except String VarMap :=
  fun _ _ => Except.ok [("n", "b")]

/-- Concrete filesystem for C3: a wallpaper, a source file, and a template
referencing the variable `n`. -/
def fsC3 : Fs :=
  { nodes := [("/w", FsNode.file "i"), ("/s", FsNode.file "o"),
              ("/s.t", FsNode.file "a\x7b\x7bn\x7d\x7d")],
    denied := [] }

/-- The C3 entry: source `/s`, destination `/d`, template `/s.t`. -/
def fC3 : FileRec :=
  { target := "/s", dest := "/d", template := some "/s.t" }

/-- Concrete manifest for C3. -/
def mC3 : ManifestL :=
  { wallpaper := some "/w", theme := none, files := [("a", fC3)] }

/-- Counterexample to C3: in the sync mode run on `mC3`, the trace of the
templated entry is link placement first, then template rendering — the link
step happens strictly before rendering, not after it as the claim states. -/
theorem sync_links_before_render_cex :
    (runSync deriveC3 (some "/h") fsC3 mC3 none false).2.2
      = [Event.linked "a", Event.rendered "a"]
    ∧ List.indexOf (Event.linked "a") [Event.linked "a", Event.rendered "a"]
        < List.indexOf (Event.rendered "a") [Event.linked "a", Event.rendered "a"] := by
  constructor
  · decide
  · decide

/-- C3 amended: in sync mode, for every entry that declares a template and
is processed to completion, link placement happens strictly before template
rendering — the entry's trace is `linked` then `rendered`, so the link step
sees the source file as it was before this run's render. -/
theorem sync_link_precedes_render (home : Option String) (cfg : VarMap) (fs : Fs)
    (n : String) (f : FileRec) (force : Bool)
    (htmpl : f.template.isSome = true)
    (hok : (processEntrySync home cfg fs n f force).1 = none) :
    (processEntrySync home cfg fs n f force).2.2
      = [Event.linked n, Event.rendered n] := by
  unfold processEntrySync at hok ⊢
  cases hsf : symlink_files home fs f force with
  | mk r p =>
    cases p with
    | mk fs1 outs =>
      rw [hsf] at hok
      cases r with
      | error m => simp at hok
      | ok u =>
        simp only [htmpl, if_true] at hok ⊢
        cases hgt : generate_template fs1 f cfg with
        | mk gr fs2 =>
          rw [hgt] at hok
          cases gr with
          | error m => simp at hok
          | ok u2 => simp

/-- Witness for the amended C3 on the concrete sync scenario of `fsC3`. -/
theorem sync_link_precedes_render_witness :
    (processEntrySync (some "/h") [("n", "b")] fsC3 "a" fC3 false).2.2
      = [Event.linked "a", Event.rendered "a"] :=
  sync_link_precedes_render (some "/h") [("n", "b")] fsC3 "a" fC3 false
    (by decide) (by decide)

/-- C4: with `force = false`, a destination occupied by a regular file makes
`place` return `ConflictManualResolutionRequired` and leaves the filesystem
— in particular the destination file's content — unchanged, and the sync
loop goes on to process the remaining entries from that same unchanged
filesystem (no run abort). -/
theorem conflict_regular_file_keeps_dest_and_continues
    (home : Option String) (cfg : VarMap) (fs : Fs) (n : String) (f : FileRec)
    (rest : List (String × FileRec)) (tp dp t0 c tc : String)
    (hdp : lookupNode fs dp = some (FsNode.file c))
    (ht0 : resolve_home_dir home f.target = Except.ok t0)
    (htp : canonicalize fs t0 = some tp)
    (htpf : lookupNode fs tp = some (FsNode.file tc))
    (hd0 : resolve_home_dir home f.dest = Except.ok dp)
    (htmpl : f.template = none) :
    symlink_file fs tp dp false
      = (Except.ok LinkOutcome.conflictManualResolutionRequired, fs)
    ∧ runEntriesSync home cfg false fs ((n, f) :: rest)
        = (match runEntriesSync home cfg false fs rest with
           | (r, fs2, evs2) => (r, fs2, Event.linked n :: evs2)) := by
  have hA : symlink_file fs tp dp false
      = (Except.ok LinkOutcome.conflictManualResolutionRequired, fs) := by
    simp [symlink_file, symlinkRaw, isSymlink, hdp]
  have hdirdp : isDir fs dp = false := isDir_of_file fs dp c hdp
  have hdirtp : isDir fs tp = false := isDir_of_file fs tp tc htpf
  have hsda : symlink_dir_all (fsFuel fs) fs tp dp false
      = (Except.ok (), fs, [LinkOutcome.conflictManualResolutionRequired]) := by
    show symlink_dir_all (fs.nodes.length + 1) fs tp dp false = _
    simp [symlink_dir_all, symlink_dir_step, hdirtp, hA]
  have hsf : symlink_files home fs f false
      = (Except.ok (), fs, [LinkOutcome.conflictManualResolutionRequired]) := by
    simp [symlink_files, ht0, htp, hd0, hdirdp, hsda]
  have hpe : processEntrySync home cfg fs n f false = (none, fs, [Event.linked n]) := by
    simp [processEntrySync, hsf, htmpl]
  refine ⟨hA, ?_⟩
  cases hrest : runEntriesSync home cfg false fs rest with
  | mk r2 p2 =>
    cases p2 with
    | mk fs2 evs2 => simp [runEntriesSync, hpe, hrest]

/-- Concrete filesystem for the C4 witness: the source exists, the
destination is a regular file. -/
def fsW4 : Fs :=
  { nodes := [("/t", FsNode.file "x"), ("/d", FsNode.file "y")], denied := [] }

/-- The C4 witness entry. -/
def fW4 : FileRec :=
  { target := "/t", dest := "/d", template := none }

/-- Witness for C4: the conflict outcome and the continuing run, evaluated
on `fsW4`. -/
theorem conflict_regular_file_keeps_dest_and_continues_witness :
    symlink_file fsW4 "/t" "/d" false
      = (Except.ok LinkOutcome.conflictManualResolutionRequired, fsW4)
    ∧ runEntriesSync (some "/h") [] false fsW4 [("a", fW4)]
        = (none, fsW4, [Event.linked "a"]) := by
  have h := conflict_regular_file_keeps_dest_and_continues (some "/h") [] fsW4 "a" fW4 []
    "/t" "/d" "/t" "y" "x" (by decide) (by decide) (by decide) (by decide) (by decide)
    (by decide)
  exact ⟨h.1, by rw [h.2]; decide⟩

/-- C5 amended: when the processing of one entry fails (for example a
permission error on a filesystem operation during link placement), the sync
loop returns that entry's error immediately — the remaining entries of the
run are not processed. -/
theorem entry_failure_aborts_remaining (home : Option String) (cfg : VarMap)
    (force : Bool) (fs : Fs) (n : String) (f : FileRec)
    (rest : List (String × FileRec)) (m : String) (fs1 : Fs) (evs : List Event)
    (h : processEntrySync home cfg fs n f force = (some m, fs1, evs)) :
    runEntriesSync home cfg force fs ((n, f) :: rest) = (some m, fs1, evs) := by
  simp [runEntriesSync, h]

/-- Concrete filesystem for C5: the first entry's destination is an
existing regular file on a permission-denied path (so the forced removal
fails), the second entry is perfectly placeable. -/
def fsW5 : Fs :=
  { nodes := [("/ta", FsNode.file "p"), ("/da", FsNode.file "q"),
              ("/tb", FsNode.file "z")],
    denied := ["/da"] }

/-- The failing C5 entry (destination on a denied path). -/
def fBad : FileRec :=
  { target := "/ta", dest := "/da", template := none }

/-- The well-formed C5 entry that follows the failing one. -/
def fGood : FileRec :=
  { target := "/tb", dest := "/db", template := none }

/-- Counterexample to C5: after the first entry fails with a permission
error, the run is over — the second entry's link is never created, even
though processing the second entry alone would create it. -/
theorem failed_entry_aborts_run_cex :
    (runEntriesSync (some "/h") [] true fsW5 [("a", fBad), ("b", fGood)]).1
      = some "could not remove file /da: permission denied"
    ∧ lookupNode (runEntriesSync (some "/h") [] true fsW5 [("a", fBad), ("b", fGood)]).2.1
        "/db" = none
    ∧ lookupNode (runEntriesSync (some "/h") [] true fsW5 [("b", fGood)]).2.1 "/db"
        = some (FsNode.symlinkTo "/tb") := by
  refine ⟨by decide, by decide, by decide⟩

/-- Witness for the amended C5 on the concrete run over `fsW5`. -/
theorem entry_failure_aborts_remaining_witness :
    runEntriesSync (some "/h") [] true fsW5 [("a", fBad), ("b", fGood)]
      = (some "could not remove file /da: permission denied", fsW5, []) :=
  entry_failure_aborts_remaining (some "/h") [] true fsW5 "a" fBad [("b", fGood)]
    "could not remove file /da: permission denied" fsW5 [] (by decide)

/-- C6 entry with a template (not selected in the scenario). -/
def fTmpl : FileRec :=
  { target := "/s", dest := "/d", template := some "/s.t" }

/-- C6 entry without a template (the selected one). -/
def fPlain : FileRec :=
  { target := "/p", dest := "/q", template := none }

/-- Concrete manifest for C6: no wallpaper; the selected entry `b` has no
template, but the unselected entry `a` does. -/
def mC6 : ManifestL :=
  { wallpaper := none, theme := none, files := [("a", fTmpl), ("b", fPlain)] }

/-- An empty filesystem for the C6 scenario. -/
def fsC6 : Fs :=
  { nodes := [], denied := [] }

/-- A palette provider returning an empty palette. -/
def deriveOkEmpty : String → String → Except String VarMap :=
  fun _ _ => Except.ok []

/-- Counterexample to C6: selecting the template-free entry `b` still
fails with the missing-wallpaper error, because the check scans every
manifest entry, not just the selection — an entry outside the selection
does trigger the failure. -/
theorem wallpaper_check_ignores_selection_cex :
    lookupEntry mC6.files "b" = some fPlain
    ∧ fPlain.template = none
    ∧ runSync deriveOkEmpty (some "/h") fsC6 mC6 (some "b") false
        = (some "could not generate color palette: `wallpaper` is not set.", fsC6, []) := by
  refine ⟨by decide, by decide, by decide⟩

/-- C6 amended: when no wallpaper is declared and any entry of the manifest
(selected or not) declares a template, the run fails with the
missing-wallpaper error before any filesystem mutation: the filesystem is
returned unchanged and the trace is empty. -/
theorem missing_wallpaper_fails_before_mutation
    (derive : String → String → Except String VarMap) (home : Option String)
    (fs : Fs) (m : ManifestL) (name : Option String) (force : Bool)
    (hw : m.wallpaper = none) (ht : has_templates m.files = true) :
    runSync derive home fs m name force
      = (some "could not generate color palette: `wallpaper` is not set.", fs, []) := by
  simp [runSync, create_color_palette, hw, ht]

/-- Witness for the amended C6 on the concrete manifest `mC6`. -/
theorem missing_wallpaper_fails_before_mutation_witness :
    runSync deriveOkEmpty (some "/h") fsC6 mC6 (some "b") false
      = (some "could not generate color palette: `wallpaper` is not set.", fsC6, []) :=
  missing_wallpaper_fails_before_mutation deriveOkEmpty (some "/h") fsC6 mC6
    (some "b") false (by decide) (by decide)

/-- A palette provider that always fails, used to observe that it gets
invoked. -/
def deriveBoom : String → String → Except String VarMap :=
  fun _ _ => Except.error "boom"

/-- Concrete filesystem for C7: a wallpaper image and a plain source file. -/
def fsC7 : Fs :=
  { nodes := [("/w", FsNode.file "img"), ("/p", FsNode.file "z")], denied := [] }

/-- Counterexample to C7: with a wallpaper declared and no entry declaring a
template, the palette provider is still invoked — its failure propagates out
of `create_color_palette`, which would be impossible had the computation
been skipped. -/
theorem palette_computed_without_templates_cex :
    has_templates [("p", fPlain)] = false
    ∧ create_color_palette deriveBoom fsC7 (some "/w") none [("p", fPlain)] []
        = Except.error "boom" := by
  refine ⟨by decide, by decide⟩

/-- C7 amended: palette computation is skipped exactly when no wallpaper is
declared (and then only errors when some entry has a template); whenever a
wallpaper is declared and canonicalizable, the provider is invoked —
regardless of whether any entry declares a template. -/
theorem palette_skipped_iff_no_wallpaper
    (derive : String → String → Except String VarMap) (fs : Fs)
    (theme : Option String) (files : List (String × FileRec)) (cfg : VarMap) :
    (create_color_palette derive fs none theme files cfg
       = (if has_templates files then
            Except.error "could not generate color palette: `wallpaper` is not set."
          else Except.ok cfg))
    ∧ (∀ wp wpPath, canonicalize fs wp = some wpPath →
        create_color_palette derive fs (some wp) theme files cfg
          = (match derive wpPath (theme.getD "dark") with
             | Except.error m => Except.error m
             | Except.ok palette =>
               Except.ok (palette.foldl (fun c kv => insertVar c kv.1 kv.2)
                 (insertVar cfg "wallpaper" wpPath)))) := by
  constructor
  · simp [create_color_palette]
  · intro wp wpPath h
    simp [create_color_palette, h]

/-- Witness for the amended C7: with a wallpaper declared and no templates,
the provider runs and its palette lands in the mapping. -/
theorem palette_skipped_iff_no_wallpaper_witness :
    create_color_palette deriveOkEmpty fsC7 (some "/w") none [("p", fPlain)] []
      = Except.ok [("wallpaper", "/w")] := by
  have h := (palette_skipped_iff_no_wallpaper deriveOkEmpty fsC7 none
    [("p", fPlain)] []).2 "/w" "/w" (by decide)
  rw [h]
  decide

/-- A palette provider that records the theme name it was handed. -/
def deriveTheme : String → String → Except String VarMap :=
  fun _ t => Except.ok [("theme", t)]

/-- C10: when the manifest omits the theme name, the theme handed to the
palette provider is the default string "dark". -/
theorem palette_theme_defaults_dark
    (derive : String → String → Except String VarMap) (fs : Fs) (wp : String)
    (files : List (String × FileRec)) (cfg : VarMap) (wpPath : String)
    (h : canonicalize fs wp = some wpPath) :
    create_color_palette derive fs (some wp) none files cfg
      = (match derive wpPath "dark" with
         | Except.error m => Except.error m
         | Except.ok palette =>
           Except.ok (palette.foldl (fun c kv => insertVar c kv.1 kv.2)
             (insertVar cfg "wallpaper" wpPath))) := by
  simp [create_color_palette, h]

/-- Witness for C10: a provider that echoes its theme argument receives
"dark" when the manifest declares no theme. -/
theorem palette_theme_defaults_dark_witness :
    create_color_palette deriveTheme fsC7 (some "/w") none [] []
      = Except.ok [("wallpaper", "/w"), ("theme", "dark")] := by
  rw [palette_theme_defaults_dark deriveTheme fsC7 "/w" [] [] "/w" (by decide)]
  decide

/-- Counterexample to C8: a `~` that is not leading is still replaced by the
home directory value — the input "a~b" does not come back unchanged. -/
theorem resolve_home_nonleading_tilde_cex :
    resolve_home_dir (some "/h") "a~b" = Except.ok "a/hb"
    ∧ resolve_home_dir (some "/h") "a~b" ≠ Except.ok "a~b" := by
  refine ⟨by decide, by decide⟩

/-- C8 amended: `resolve` substitutes the home-directory value for every
occurrence of `~` (leading or not) and every occurrence of `$HOME` in the
path string, and fails exactly when the home-directory variable is unset;
it is a pure string transformation and takes no filesystem. -/
theorem resolve_home_dir_replaces_all_tokens (h p : String) :
    resolve_home_dir (some h) p
      = Except.ok (strReplace (strReplace p "~" h) "$HOME" h)
    ∧ resolve_home_dir none p
      = Except.error "could not find home directory: environment variable not found" :=
  ⟨rfl, rfl⟩

/-- C9: with an existing, readable template declared, rendering gates the
write: a failed render (in particular an undefined variable, which is
reported exactly when that variable is absent from the mapping) leaves the
filesystem untouched and surfaces the error, while a successful render
writes the rendered text to the entry's canonical target (source) path and
changes no other path — in particular not the entry's destination. -/
theorem generate_template_render_gate (fs : Fs) (f : FileRec) (cfg : VarMap)
    (tpath tdata tp : String)
    (htp : f.template = some tpath)
    (hct : canonicalize fs f.target = some tp)
    (hrd : readToString fs tpath = Except.ok tdata) :
    (∀ e, renderTemplate cfg tdata = Except.error e →
        generate_template fs f cfg = (Except.error (renderErrMsg tpath e), fs))
    ∧ (∀ v, renderTemplate cfg tdata = Except.error (RenderErr.undefinedVariable v) →
        lookupVar cfg v = none)
    ∧ (∀ r fs1, renderTemplate cfg tdata = Except.ok r →
        writeFile fs tp r = Except.ok fs1 →
        generate_template fs f cfg = (Except.ok (), fs1)
        ∧ ∀ q, q ≠ tp → lookupNode fs1 q = lookupNode fs q) := by
  have hex : pathExists fs tpath = true := by
    unfold readToString at hrd
    cases hc : canonicalize fs tpath with
    | none => rw [hc] at hrd; simp at hrd
    | some q => simp [pathExists, hc]
  refine ⟨?_, ?_, ?_⟩
  · intro e he
    simp [generate_template, htp, hct, hex, hrd, he]
  · intro v hv
    unfold renderTemplate at hv
    cases hs : strSplitOn tdata "\x7b\x7b" with
    | nil => rw [hs] at hv; simp at hv
    | cons first rest =>
      rw [hs] at hv
      dsimp only at hv
      cases hr : renderChunks cfg rest with
      | error e =>
        rw [hr] at hv
        simp at hv
        exact renderChunks_undef cfg rest v (by rw [hr, hv])
      | ok out => rw [hr] at hv; simp at hv
  · intro r fs1 hok hw
    constructor
    · simp [generate_template, htp, hct, hex, hrd, hok, hw]
    · exact writeFile_frame fs tp r fs1 hw

/-- Concrete filesystem for the C9 witness: a source file and a template
referencing the variable `m`, which is absent from the empty mapping. -/
def fs9 : Fs :=
  { nodes := [("/s", FsNode.file "o"), ("/s.t", FsNode.file "\x7b\x7bm\x7d\x7d")],
    denied := [] }

/-- The C9 witness entry. -/
def f9 : FileRec :=
  { target := "/s", dest := "/d", template := some "/s.t" }

/-- Witness for C9: rendering the template referencing the absent variable
`m` fails and writes nothing. -/
theorem generate_template_render_gate_witness :
    generate_template fs9 f9 []
      = (Except.error (renderErrMsg "/s.t" (RenderErr.undefinedVariable "m")), fs9)
    ∧ lookupVar ([] : VarMap) "m" = none := by
  have h := generate_template_render_gate fs9 f9 [] "/s.t" "\x7b\x7bm\x7d\x7d" "/s"
    (by decide) (by decide) (by decide)
  exact ⟨h.1 (RenderErr.undefinedVariable "m") (by decide), h.2.1 "m" (by decide)⟩
